import Mathlib

/-!
Shallow embedding of `rastertools.py` (GeoTIFF read/write/mask helpers built
around GDAL and numpy).

Modelling conventions:
* Pixel values and geotransform coefficients are exact rationals (`ℚ`),
  the idealisation of the Python floats.
* A GDAL dataset is a `Dataset` record: its dimensions, band count, native
  element type and band contents (`bands b i j` is the value of 1-indexed
  band `b` at row `i`, column `j`), standing for what `gdal.Open` yields.
* File creation by the GTiff driver is modelled by a caller-supplied
  predicate `create : String → Bool` (`gdal.Driver.Create` returns a dataset
  or `None`); a created file is an `OutFile` record of everything the code
  sets on it.  Failures are an `Except` error: `driver.Create` returning
  `None` makes the very next method call (`out_ds.SetProjection`) raise
  `AttributeError`, and a zero-sized dimension makes the scale computation
  raise `ZeroDivisionError`.
* The cast performed by numpy when a value is stored into a `uint32` array
  (`stack[:, :, band] = arr` in `read_geotiff`) is `uint32Cast`: truncation
  toward zero followed by reduction modulo 2^32.
* The cast `astype(np.float32)` in `mask_raster_with_shapefile` is a numpy
  primitive outside this repository; it is passed in as an abstract function
  `toFloat32 : ℚ → ℚ` applied pointwise.
-/

namespace Rastertools

/-- GDAL affine geotransform: the 6-tuple `(originX, pixelWidth, rowRotation,
originY, colRotation, pixelHeight)`, positions 0..5 of the Python tuple
`trans`. -/
@[ext] structure GeoTransform where
  originX : ℚ
  pixelWidth : ℚ
  rowRotation : ℚ
  originY : ℚ
  colRotation : ℚ
  pixelHeight : ℚ
deriving DecidableEq

/-- The numpy element types the code can meet (`arr.dtype`). -/
inductive NpDtype where
  | float32
  | float64
  | int16
  | int32
  | int64
  | uint8
  | uint16
  | uint32
deriving DecidableEq

/-- The GDAL band data types the code mentions (`gdal.GDT_...`). -/
inductive GdalDataType where
  | GDT_Float32
  | GDT_Int32
  | GDT_Byte
deriving DecidableEq

/-- An opened GDAL dataset, as the code reads it: dimensions
(`RasterYSize` = rows, `RasterXSize` = cols), band count (`RasterCount`),
the native element type of its bands, and the band contents; `bands b i j`
is the value of 1-indexed band `b` at row `i`, column `j` (what
`ds.GetRasterBand(b).ReadAsArray()` returns at `[i, j]`). -/
structure Dataset where
  rasterYSize : ℕ
  rasterXSize : ℕ
  rasterCount : ℕ
  dtype : NpDtype
  bands : ℕ → ℕ → ℕ → ℚ

/-- The cast numpy applies when a source value is assigned into a `uint32`
array (`stack[:, :, band] = arr` with `stack` of dtype `np.uint32`): the
integer part (truncation toward zero, as in a C cast) reduced modulo 2^32.
On `ℚ`, `Int.tdiv q.num q.den` is that integer part. -/
def uint32Cast (q : ℚ) : ℕ :=
  ((Int.tdiv q.num (q.den : ℤ)) % (2 ^ 32)).toNat

/-- Result of `read_geotiff`: a 2-D array in the file's native element type
for a single-band source, or a 3-D stack for a multi-band source.  The
stack's element type is the dtype baked into `np.empty(..., dtype =
np.uint32)`, hence its entries are naturals below 2^32. -/
inductive ReadResult where
  | single (rows cols : ℕ) (dtype : NpDtype) (data : ℕ → ℕ → ℚ)
  | multi (rows cols count : ℕ) (dtype : NpDtype) (data : ℕ → ℕ → ℕ → ℕ)

/-- `read_geotiff` (source lines 25-39): if the dataset has more than one
band, allocate a `(rows, cols, count)` array of dtype `np.uint32` and store
band `band+1` (1-indexed in the file) at last-axis index `band`; otherwise
return band 1 as a 2-D array in the native type. -/
def read_geotiff (ds : Dataset) : ReadResult :=
  if 1 < ds.rasterCount then
    ReadResult.multi ds.rasterYSize ds.rasterXSize ds.rasterCount NpDtype.uint32
      (fun i j band => uint32Cast (ds.bands (band + 1) i j))
  else
    ReadResult.single ds.rasterYSize ds.rasterXSize ds.dtype
      (fun i j => ds.bands 1 i j)

/-- The triple returned by `read_reference_tiff`: `(ref_transform,
ref_projection, reference)`, where the live dataset handle is consulted only
for its dimensions (`RasterYSize`, `RasterXSize`) by `write_geotiff`. -/
structure Reference where
  transform : GeoTransform
  projection : String
  rasterYSize : ℕ
  rasterXSize : ℕ

/-- The dtype dispatch at the top of `write_geotiff` (source lines 52-55):
`gdal.GDT_Float32` when `arr.dtype == np.float32`, otherwise
`gdal.GDT_Int32`. -/
def arr_type (dtype : NpDtype) : GdalDataType :=
  if dtype = NpDtype.float32 then GdalDataType.GDT_Float32
  else GdalDataType.GDT_Int32

/-- The geotransform rescaling step of `write_geotiff` (source lines 59-77):
`x_res = trans[1] * (ref_cols / arr_cols)`,
`y_res = trans[5] * (ref_rows / arr_rows)`,
`new_origin_x = trans[0] + 0.5 * (trans[1] - x_res)`,
`new_origin_y = trans[3] + 0.5 * (trans[5] - y_res)`, rotation terms
`trans[2]` and `trans[4]` passed through. -/
def rescaleTransform (trans : GeoTransform)
    (ref_rows ref_cols arr_rows arr_cols : ℕ) : GeoTransform :=
  let x_res : ℚ := trans.pixelWidth * ((ref_cols : ℚ) / (arr_cols : ℚ))
  let y_res : ℚ := trans.pixelHeight * ((ref_rows : ℚ) / (arr_rows : ℚ))
  ⟨trans.originX + (1 / 2) * (trans.pixelWidth - x_res),
   x_res,
   trans.rowRotation,
   trans.originY + (1 / 2) * (trans.pixelHeight - y_res),
   trans.colRotation,
   y_res⟩

/-- A numpy array as `write_geotiff` distinguishes them by `len(arr.shape)`:
2-D `(rows, cols)` or 3-D `(rows, cols, nbands)`. -/
inductive NpArray where
  | a2 (rows cols : ℕ) (dtype : NpDtype) (data : ℕ → ℕ → ℚ)
  | a3 (rows cols nbands : ℕ) (dtype : NpDtype) (data : ℕ → ℕ → ℕ → ℚ)

/-- The Python exceptions `write_geotiff` can raise: `ZeroDivisionError`
from `ref_cols / arr_cols` or `ref_rows / arr_rows` when an array dimension
is zero, and `AttributeError` from calling `SetProjection` on the `None`
that `driver.Create` returns when it cannot create the target file (the
path is recorded). -/
inductive PyError where
  | zeroDivisionError
  | attributeErrorNone (path : String)
deriving DecidableEq

/-- Modelled from the spec: the code defines no error classes, so the
spec's error taxonomy has no counterpart under `src/`.  Per the spec,
`WriteError` is the failure surfaced when "the output driver/location is
invalid or unwritable", i.e. the failure at file creation; the rescaler's
division by zero is listed there as a separate arithmetic category,
"treated as a caller precondition violation, not caught". -/
def isWriteError : PyError → Bool
  | PyError.attributeErrorNone _ => true
  | PyError.zeroDivisionError => false

/-- One output GeoTIFF as `write_geotiff` builds it: creation arguments
(`Create(path, xsize, ysize, 1, arr_type)`), then `SetProjection`,
`SetGeoTransform`, and the pixel values written into band 1. -/
structure OutFile where
  path : String
  projection : String
  transform : GeoTransform
  xSize : ℕ
  ySize : ℕ
  nBands : ℕ
  bandType : GdalDataType
  band1 : ℕ → ℕ → ℚ

/-- The multi-band loop of `write_geotiff` (source lines 81-89): for each
band index `rband` in order, create `folder/name_rband.tif`; a failed
create surfaces as the `AttributeError` on the `None` dataset.  Each file
gets the shared projection and rescaled transform and the 2-D slice
`arr[:, :, rband]` as band 1. -/
def writeBandLoop (create : String → Bool) (folder name proj : String)
    (tr : GeoTransform) (rows cols : ℕ) (t : GdalDataType)
    (data : ℕ → ℕ → ℕ → ℚ) : List ℕ → Except PyError (List OutFile)
  | [] => Except.ok []
  | rband :: rest =>
    let p := folder ++ "/" ++ name ++ "_" ++ toString rband ++ ".tif"
    if create p then
      match writeBandLoop create folder name proj tr rows cols t data rest with
      | Except.ok files =>
          Except.ok (⟨p, proj, tr, cols, rows, 1, t, fun i j => data i j rband⟩ :: files)
      | Except.error e => Except.error e
    else
      Except.error (PyError.attributeErrorNone p)

/-- `write_geotiff` (source lines 41-97): pick the band type from the
dtype, compute the rescaled transform from the reference dimensions versus
the array's first two axis lengths (raising `ZeroDivisionError` if either
is zero), then write one file for a 2-D array, or one file per third-axis
slice for a 3-D array. -/
def write_geotiff (create : String → Bool) (arr : NpArray) (folder : String)
    (reference : Reference) (name : String) : Except PyError (List OutFile) :=
  match arr with
  | NpArray.a2 rows cols dtype data =>
    if cols = 0 ∨ rows = 0 then
      Except.error PyError.zeroDivisionError
    else
      let t := arr_type dtype
      let new_transform :=
        rescaleTransform reference.transform reference.rasterYSize
          reference.rasterXSize rows cols
      let p := folder ++ "/" ++ name ++ ".tif"
      if create p then
        Except.ok [⟨p, reference.projection, new_transform, cols, rows, 1, t, data⟩]
      else
        Except.error (PyError.attributeErrorNone p)
  | NpArray.a3 rows cols nbands dtype data =>
    if cols = 0 ∨ rows = 0 then
      Except.error PyError.zeroDivisionError
    else
      let t := arr_type dtype
      let new_transform :=
        rescaleTransform reference.transform reference.rasterYSize
          reference.rasterXSize rows cols
      writeBandLoop create folder name reference.projection new_transform
        rows cols t data (List.range nbands)

/-- The output dataset built by `mask_raster_with_shapefile` (source lines
128-136): a single-band `GDT_Float32` file with the source transform and
projection, the masked float array in band 1, and the declared no-data
value. -/
structure MaskOutput where
  xSize : ℕ
  ySize : ℕ
  bandType : GdalDataType
  transform : GeoTransform
  projection : String
  band1 : ℕ → ℕ → ℚ
  noDataValue : ℚ

/-- The array/masking core of `mask_raster_with_shapefile` (source lines
118-136), after the external GDAL calls: `raster_array` is band 1 of the
source, `mask_array` the byte mask produced by `gdal.RasterizeLayer`
(burn value 1 inside the geometry, 0 elsewhere), `toFloat32` the numpy
`astype(np.float32)` cast.  The array is float-coerced, pixels where the
mask equals 1 are overwritten with `nodata_value`, and the result is
written to a `GDT_Float32` file whose band declares `nodata_value` as its
no-data value. -/
def mask_raster_with_shapefile (toFloat32 : ℚ → ℚ)
    (raster_array : ℕ → ℕ → ℚ) (mask_array : ℕ → ℕ → ℕ)
    (xSize ySize : ℕ) (transform : GeoTransform) (projection : String)
    (nodata_value : ℚ) : MaskOutput :=
  let coerced : ℕ → ℕ → ℚ := fun i j => toFloat32 (raster_array i j)
  let masked : ℕ → ℕ → ℚ :=
    fun i j => if mask_array i j = 1 then nodata_value else coerced i j
  ⟨xSize, ySize, GdalDataType.GDT_Float32, transform, projection, masked,
   nodata_value⟩

section Helpers

/-- A positive natural number casts to a nonzero rational. -/
lemma natCast_ne_zero_of_pos {n : ℕ} (h : 0 < n) : (n : ℚ) ≠ 0 :=
  Nat.cast_ne_zero.mpr (Nat.pos_iff_ne_zero.mp h)

/-- Rescaling against the reference's own dimensions changes nothing:
each scale factor is `n / n = 1` and the origin shift is `0.5 * 0`. -/
lemma rescaleTransform_self (t : GeoTransform) {rows cols : ℕ}
    (hr : 0 < rows) (hc : 0 < cols) :
    rescaleTransform t rows cols rows cols = t := by
  have hr' : ((rows : ℚ)) ≠ 0 := natCast_ne_zero_of_pos hr
  have hc' : ((cols : ℚ)) ≠ 0 := natCast_ne_zero_of_pos hc
  ext <;> simp [rescaleTransform, div_self, hr', hc']

end Helpers

/-- C1: for every reference transform and strictly positive `refRows`,
`refCols`, `outRows`, `outCols`, the writer's rescaling step yields
`(originX + 0.5*(pixelWidth - newPixelWidth), newPixelWidth, rowRotation,
originY + 0.5*(pixelHeight - newPixelHeight), colRotation, newPixelHeight)`
with `newPixelWidth = pixelWidth * (refCols/outCols)` and `newPixelHeight =
pixelHeight * (refRows/outRows)`; the rotation terms are copied unchanged. -/
theorem rescale_formula (t : GeoTransform) (refRows refCols outRows outCols : ℕ)
    (h1 : 0 < refRows) (h2 : 0 < refCols) (h3 : 0 < outRows) (h4 : 0 < outCols) :
    rescaleTransform t refRows refCols outRows outCols =
      ⟨t.originX + (1 / 2) * (t.pixelWidth - t.pixelWidth * ((refCols : ℚ) / (outCols : ℚ))),
       t.pixelWidth * ((refCols : ℚ) / (outCols : ℚ)),
       t.rowRotation,
       t.originY + (1 / 2) * (t.pixelHeight - t.pixelHeight * ((refRows : ℚ) / (outRows : ℚ))),
       t.colRotation,
       t.pixelHeight * ((refRows : ℚ) / (outRows : ℚ))⟩ := rfl

/-- Witness for C1 at transform `(0, 10, 0, 40, 0, -10)`, reference 4x4,
output 2x2. -/
theorem rescale_formula_witness :
    (0 < 4 ∧ 0 < 2) ∧
      rescaleTransform ⟨0, 10, 0, 40, 0, -10⟩ 4 4 2 2 =
        ⟨0 + (1 / 2) * (10 - 10 * ((4 : ℚ) / (2 : ℚ))),
         10 * ((4 : ℚ) / (2 : ℚ)),
         0,
         40 + (1 / 2) * (-10 - (-10) * ((4 : ℚ) / (2 : ℚ))),
         0,
         (-10) * ((4 : ℚ) / (2 : ℚ))⟩ :=
  ⟨⟨by norm_num, by norm_num⟩,
   rescale_formula ⟨0, 10, 0, 40, 0, -10⟩ 4 4 2 2 (by norm_num) (by norm_num)
     (by norm_num) (by norm_num)⟩

/-- C2 counterexample: on the 4x4 reference with transform
`(0, 10, 0, 40, 0, -10)` and a 2x2 output, the rescaling step does not
produce the claimed `(2.5, 20, 0, 22.5, 0, -20)`: the origin shift
`0.5 * (10 - 20)` is `-5`, not `+2.5`. -/
theorem rescale_example_counterexample :
    rescaleTransform ⟨0, 10, 0, 40, 0, -10⟩ 4 4 2 2 ≠
      ⟨5 / 2, 20, 0, 45 / 2, 0, -20⟩ := by
  norm_num [rescaleTransform, GeoTransform.mk.injEq]

/-- C2 amended: the 4x4 reference with transform `(0, 10, 0, 40, 0, -10)`
and a 2x2 output rescale to `(-5, 20, 0, 45, 0, -20)`. -/
theorem rescale_example :
    rescaleTransform ⟨0, 10, 0, 40, 0, -10⟩ 4 4 2 2 =
      ⟨-5, 20, 0, 45, 0, -20⟩ := by
  norm_num [rescaleTransform, GeoTransform.mk.injEq]

/-- C3: when the output array has exactly the reference's (strictly
positive) dimensions, rescaling is the identity, and the single file the
writer produces carries a transform equal, component by component, to the
reference transform. -/
theorem write_roundtrip_transform (create : String → Bool) (ref : Reference)
    (dtype : NpDtype) (data : ℕ → ℕ → ℚ) (folder name : String)
    (hr : 0 < ref.rasterYSize) (hc : 0 < ref.rasterXSize)
    (hcr : create (folder ++ "/" ++ name ++ ".tif") = true) :
    rescaleTransform ref.transform ref.rasterYSize ref.rasterXSize
        ref.rasterYSize ref.rasterXSize = ref.transform ∧
      write_geotiff create
          (NpArray.a2 ref.rasterYSize ref.rasterXSize dtype data) folder ref name =
        Except.ok [⟨folder ++ "/" ++ name ++ ".tif", ref.projection,
          ref.transform, ref.rasterXSize, ref.rasterYSize, 1,
          arr_type dtype, data⟩] := by
  have hid := rescaleTransform_self ref.transform hr hc
  refine ⟨hid, ?_⟩
  have hz : ¬(ref.rasterXSize = 0 ∨ ref.rasterYSize = 0) := by omega
  simp only [write_geotiff, if_neg hz, hcr, if_true, hid]

/-- Witness for C3: a 3x2 reference with a concrete transform, all creates
succeeding. -/
theorem write_roundtrip_transform_witness :
    rescaleTransform ⟨7, 2, 1, 9, 3, -4⟩ 3 2 3 2 = ⟨7, 2, 1, 9, 3, -4⟩ ∧
      write_geotiff (fun _ => true)
          (NpArray.a2 3 2 NpDtype.int32 (fun _ _ => 0)) "out"
          ⟨⟨7, 2, 1, 9, 3, -4⟩, "PROJ", 3, 2⟩ "base" =
        Except.ok [⟨"out" ++ "/" ++ "base" ++ ".tif", "PROJ",
          ⟨7, 2, 1, 9, 3, -4⟩, 2, 3, 1, arr_type NpDtype.int32,
          fun _ _ => 0⟩] :=
  write_roundtrip_transform (fun _ => true) ⟨⟨7, 2, 1, 9, 3, -4⟩, "PROJ", 3, 2⟩
    NpDtype.int32 (fun _ _ => 0) "out" "base" (by norm_num) (by norm_num) rfl

/-- C4: in exact rational arithmetic the rescaled pixel sizes preserve the
extent length along each axis: `newPixelWidth * outCols = pixelWidth *
refCols` and `newPixelHeight * outRows = pixelHeight * refRows`. -/
theorem rescale_extent (t : GeoTransform) (refRows refCols outRows outCols : ℕ)
    (h1 : 0 < refRows) (h2 : 0 < refCols) (h3 : 0 < outRows) (h4 : 0 < outCols) :
    (rescaleTransform t refRows refCols outRows outCols).pixelWidth * (outCols : ℚ) =
        t.pixelWidth * (refCols : ℚ) ∧
      (rescaleTransform t refRows refCols outRows outCols).pixelHeight * (outRows : ℚ) =
        t.pixelHeight * (refRows : ℚ) := by
  have hoR : ((outRows : ℚ)) ≠ 0 := natCast_ne_zero_of_pos h3
  have hoC : ((outCols : ℚ)) ≠ 0 := natCast_ne_zero_of_pos h4
  constructor
  · show t.pixelWidth * ((refCols : ℚ) / (outCols : ℚ)) * (outCols : ℚ) = _
    rw [mul_assoc, div_mul_cancel₀ _ hoC]
  · show t.pixelHeight * ((refRows : ℚ) / (outRows : ℚ)) * (outRows : ℚ) = _
    rw [mul_assoc, div_mul_cancel₀ _ hoR]

/-- Witness for C4 at transform `(0, 10, 0, 40, 0, -10)`, reference 4x4,
output 2x2: `20 * 2 = 10 * 4` and `(-20) * 2 = (-10) * 4`. -/
theorem rescale_extent_witness :
    (0 < 4 ∧ 0 < 2) ∧
      ((rescaleTransform ⟨0, 10, 0, 40, 0, -10⟩ 4 4 2 2).pixelWidth * ((2 : ℕ) : ℚ) =
          (GeoTransform.pixelWidth ⟨0, 10, 0, 40, 0, -10⟩) * ((4 : ℕ) : ℚ) ∧
        (rescaleTransform ⟨0, 10, 0, 40, 0, -10⟩ 4 4 2 2).pixelHeight * ((2 : ℕ) : ℚ) =
          (GeoTransform.pixelHeight ⟨0, 10, 0, 40, 0, -10⟩) * ((4 : ℕ) : ℚ)) :=
  ⟨⟨by norm_num, by norm_num⟩,
   rescale_extent ⟨0, 10, 0, 40, 0, -10⟩ 4 4 2 2 (by norm_num) (by norm_num)
     (by norm_num) (by norm_num)⟩

/-- C5: masking semantics: every pixel whose mask value equals 1 becomes
`nodata_value`, every other pixel is the float-coerced source value, and
the output band declares `nodata_value` as its no-data value. -/
theorem mask_semantics (toFloat32 : ℚ → ℚ) (raster_array : ℕ → ℕ → ℚ)
    (mask_array : ℕ → ℕ → ℕ) (xSize ySize : ℕ) (tr : GeoTransform)
    (proj : String) (nodata : ℚ) (i j : ℕ) :
    ((mask_array i j = 1 →
        (mask_raster_with_shapefile toFloat32 raster_array mask_array xSize
          ySize tr proj nodata).band1 i j = nodata) ∧
      (mask_array i j ≠ 1 →
        (mask_raster_with_shapefile toFloat32 raster_array mask_array xSize
          ySize tr proj nodata).band1 i j = toFloat32 (raster_array i j))) ∧
      (mask_raster_with_shapefile toFloat32 raster_array mask_array xSize
        ySize tr proj nodata).noDataValue = nodata := by
  refine ⟨⟨fun h => ?_, fun h => ?_⟩, rfl⟩
  · simp [mask_raster_with_shapefile, h]
  · simp [mask_raster_with_shapefile, h]

/-- Witness for C5: a 2x2 all-ones raster, a mask covering column 0,
`nodata = -9999`, identity coercion: the masked pixel reads -9999, the
unmasked one reads 1, and the declared no-data value is -9999. -/
theorem mask_semantics_witness :
    (mask_raster_with_shapefile (fun q => q) (fun _ _ => 1)
        (fun _ j => if j = 0 then 1 else 0) 2 2 ⟨0, 1, 0, 0, 0, -1⟩ "P"
        (-9999)).band1 0 0 = -9999 ∧
      (mask_raster_with_shapefile (fun q => q) (fun _ _ => 1)
        (fun _ j => if j = 0 then 1 else 0) 2 2 ⟨0, 1, 0, 0, 0, -1⟩ "P"
        (-9999)).band1 0 1 = (fun q => q) ((fun _ _ => (1 : ℚ)) 0 1) ∧
      (mask_raster_with_shapefile (fun q => q) (fun _ _ => 1)
        (fun _ j => if j = 0 then 1 else 0) 2 2 ⟨0, 1, 0, 0, 0, -1⟩ "P"
        (-9999)).noDataValue = -9999 :=
  ⟨(mask_semantics (fun q => q) (fun _ _ => 1) (fun _ j => if j = 0 then 1 else 0)
      2 2 ⟨0, 1, 0, 0, 0, -1⟩ "P" (-9999) 0 0).1.1 rfl,
   (mask_semantics (fun q => q) (fun _ _ => 1) (fun _ j => if j = 0 then 1 else 0)
      2 2 ⟨0, 1, 0, 0, 0, -1⟩ "P" (-9999) 0 1).1.2 (by decide),
   (mask_semantics (fun q => q) (fun _ _ => 1) (fun _ j => if j = 0 then 1 else 0)
      2 2 ⟨0, 1, 0, 0, 0, -1⟩ "P" (-9999) 0 0).2⟩

section Helpers

/-- When every create succeeds, the band loop returns one `OutFile` per
band index, in order. -/
lemma writeBandLoop_ok (create : String → Bool) (folder name proj : String)
    (tr : GeoTransform) (rows cols : ℕ) (t : GdalDataType)
    (data : ℕ → ℕ → ℕ → ℚ) (hcr : ∀ p, create p = true) (l : List ℕ) :
    writeBandLoop create folder name proj tr rows cols t data l =
      Except.ok (l.map (fun rband =>
        ⟨folder ++ "/" ++ name ++ "_" ++ toString rband ++ ".tif", proj, tr,
         cols, rows, 1, t, fun i j => data i j rband⟩)) := by
  induction l with
  | nil => rfl
  | cons b rest ih => simp [writeBandLoop, hcr, ih]

end Helpers

/-- C6 counterexample: a 3-D array of shape (0, 2, 3) — first dimension
zero — makes the writer raise on the scale computation, so it does not
create any file, let alone exactly 3. -/
theorem write_multiband_counterexample :
    ¬ ∃ files, write_geotiff (fun _ => true)
        (NpArray.a3 0 2 3 NpDtype.int32 (fun _ _ _ => 0)) "out"
        ⟨⟨0, 1, 0, 0, 0, -1⟩, "P", 4, 4⟩ "base" = Except.ok files := by
  rintro ⟨files, h⟩
  simp [write_geotiff] at h

/-- C6 amended: for a 3-D array of shape (R, C, B) with B > 1 and strictly
positive R and C, and a driver that can create every target file, the
writer produces exactly B files, in band order, named
`folder/name_rband.tif` for `rband` from 0 to B-1, each a single-band
raster of shape (R, C) holding slice `arr[:, :, rband]`, all with the same
rescaled transform and the same projection. -/
theorem write_multiband (create : String → Bool) (folder name : String)
    (ref : Reference) (R C B : ℕ) (dtype : NpDtype) (data : ℕ → ℕ → ℕ → ℚ)
    (hB : 1 < B) (hR : 0 < R) (hC : 0 < C) (hcr : ∀ p, create p = true) :
    write_geotiff create (NpArray.a3 R C B dtype data) folder ref name =
        Except.ok ((List.range B).map (fun rband =>
          ⟨folder ++ "/" ++ name ++ "_" ++ toString rband ++ ".tif",
           ref.projection,
           rescaleTransform ref.transform ref.rasterYSize ref.rasterXSize R C,
           C, R, 1, arr_type dtype, fun i j => data i j rband⟩)) ∧
      ((List.range B).map (fun rband : ℕ =>
        (folder ++ "/" ++ name ++ "_" ++ toString rband ++ ".tif"))).length = B := by
  have hz : ¬(C = 0 ∨ R = 0) := by omega
  refine ⟨?_, by simp⟩
  simp only [write_geotiff, if_neg hz]
  exact writeBandLoop_ok create folder name ref.projection _ R C _ data hcr _

/-- Witness for C6 at a (1, 1, 2) array against a 3x3 reference, all
creates succeeding. -/
theorem write_multiband_witness :
    write_geotiff (fun _ => true)
        (NpArray.a3 1 1 2 NpDtype.float32 (fun _ _ b => (b : ℚ))) "out"
        ⟨⟨0, 1, 0, 0, 0, -1⟩, "P", 3, 3⟩ "base" =
      Except.ok ((List.range 2).map (fun rband =>
        ⟨"out" ++ "/" ++ "base" ++ "_" ++ toString rband ++ ".tif", "P",
         rescaleTransform ⟨0, 1, 0, 0, 0, -1⟩ 3 3 1 1, 1, 1, 1,
         arr_type NpDtype.float32, fun i j => (fun _ _ b => (b : ℚ)) i j rband⟩)) ∧
      ((List.range 2).map (fun rband : ℕ =>
        ("out" ++ "/" ++ "base" ++ "_" ++ toString rband ++ ".tif"))).length = 2 :=
  write_multiband (fun _ => true) "out" "base" ⟨⟨0, 1, 0, 0, 0, -1⟩, "P", 3, 3⟩
    1 1 2 NpDtype.float32 (fun _ _ b => (b : ℚ)) (by norm_num) (by norm_num)
    (by norm_num) (fun _ => rfl)

section Helpers

/-- Every value stored through the uint32 cast is below 2^32. -/
lemma uint32Cast_lt (q : ℚ) : uint32Cast q < 2 ^ 32 := by
  unfold uint32Cast
  have h1 : 0 ≤ (Int.tdiv q.num (q.den : ℤ)) % (2 ^ 32 : ℤ) :=
    Int.emod_nonneg _ (by norm_num)
  have h2 : (Int.tdiv q.num (q.den : ℤ)) % (2 ^ 32 : ℤ) < 2 ^ 32 :=
    Int.emod_lt_of_pos _ (by norm_num)
  omega

end Helpers

/-- C7: a single-band source reads as a 2-D `(rows, cols)` array of band 1
in the native element type; a source with more than one band reads as a
3-D `(rows, cols, count)` stack of element type uint32 (entries below
2^32), with 1-indexed file band `band + 1` at last-axis index `band`. -/
theorem read_dispatch (ds : Dataset) :
    (ds.rasterCount = 1 →
        read_geotiff ds = ReadResult.single ds.rasterYSize ds.rasterXSize
          ds.dtype (fun i j => ds.bands 1 i j)) ∧
      (1 < ds.rasterCount →
        read_geotiff ds = ReadResult.multi ds.rasterYSize ds.rasterXSize
          ds.rasterCount NpDtype.uint32
          (fun i j band => uint32Cast (ds.bands (band + 1) i j))) ∧
      ∀ i j band, uint32Cast (ds.bands (band + 1) i j) < 2 ^ 32 := by
  refine ⟨fun h => ?_, fun h => ?_, fun i j band => uint32Cast_lt _⟩
  · simp [read_geotiff, h]
  · simp [read_geotiff, h]

/-- Witness for C7: a 2x3 single-band int16 source and a 1x1 two-band
float64 source. -/
theorem read_dispatch_witness :
    read_geotiff ⟨2, 3, 1, NpDtype.int16, fun _ i j => ((i : ℚ) + (j : ℚ))⟩ =
        ReadResult.single 2 3 NpDtype.int16 (fun i j => ((i : ℚ) + (j : ℚ))) ∧
      read_geotiff ⟨1, 1, 2, NpDtype.float64,
          fun band _ _ => if band = 1 then -1 else 5 / 2⟩ =
        ReadResult.multi 1 1 2 NpDtype.uint32 (fun i j band =>
          uint32Cast ((fun band _ _ => if band = 1 then (-1 : ℚ) else 5 / 2)
            (band + 1) i j)) :=
  ⟨(read_dispatch ⟨2, 3, 1, NpDtype.int16, fun _ i j => ((i : ℚ) + (j : ℚ))⟩).1 rfl,
   (read_dispatch ⟨1, 1, 2, NpDtype.float64,
      fun band _ _ => if band = 1 then -1 else 5 / 2⟩).2.1 (by norm_num)⟩

/-- C8: the writer's band type is `GDT_Float32` exactly for float32 input
arrays and `GDT_Int32` for every other element type. -/
theorem dtype_dispatch :
    arr_type NpDtype.float32 = GdalDataType.GDT_Float32 ∧
      ∀ d : NpDtype, d ≠ NpDtype.float32 → arr_type d = GdalDataType.GDT_Int32 := by
  refine ⟨rfl, fun d hd => ?_⟩
  simp [arr_type, hd]

/-- Witness for C8 at float64 and uint16 inputs, both mapped to int32. -/
theorem dtype_dispatch_witness :
    arr_type NpDtype.float64 = GdalDataType.GDT_Int32 ∧
      arr_type NpDtype.uint16 = GdalDataType.GDT_Int32 :=
  ⟨dtype_dispatch.2 NpDtype.float64 (by decide),
   dtype_dispatch.2 NpDtype.uint16 (by decide)⟩

section Helpers

/-- If the driver cannot create the file of some band index in the list,
the band loop does not return a success. -/
lemma writeBandLoop_fail (create : String → Bool) (folder name proj : String)
    (tr : GeoTransform) (rows cols : ℕ) (t : GdalDataType)
    (data : ℕ → ℕ → ℕ → ℚ) (l : List ℕ) (b : ℕ) (hb : b ∈ l)
    (hf : create (folder ++ "/" ++ name ++ "_" ++ toString b ++ ".tif") = false) :
    ∀ files, writeBandLoop create folder name proj tr rows cols t data l ≠
      Except.ok files := by
  induction l with
  | nil => cases hb
  | cons a rest ih =>
    intro files h
    by_cases hc : create (folder ++ "/" ++ name ++ "_" ++ toString a ++ ".tif") = true
    · cases hb with
      | head => rw [hf] at hc; cases hc
      | tail _ hb' =>
        simp only [writeBandLoop, hc, if_true] at h
        cases hres : writeBandLoop create folder name proj tr rows cols t data rest with
        | ok files' => exact ih hb' files' hres
        | error e => rw [hres] at h; exact Except.noConfusion h
    · have hc' : create (folder ++ "/" ++ name ++ "_" ++ toString a ++ ".tif") = false := by
        simpa using hc
      simp only [writeBandLoop, hc'] at h
      exact Except.noConfusion h

end Helpers

/-- C9 counterexample: an array whose first dimension is zero makes
`write_geotiff` fail with the uncaught `ZeroDivisionError` raised by the
rescaling arithmetic, which is not the spec taxonomy's `WriteError`. -/
theorem write_error_counterexample :
    write_geotiff (fun _ => true) (NpArray.a2 0 3 NpDtype.int32 (fun _ _ => 0))
        "out" ⟨⟨0, 1, 0, 0, 0, -1⟩, "P", 4, 4⟩ "base" =
      Except.error PyError.zeroDivisionError ∧
      isWriteError PyError.zeroDivisionError = false := by
  constructor
  · simp [write_geotiff]
  · rfl

/-- C9 amended: an array with a zero first or second dimension makes the
writer fail, but with the uncaught division-by-zero arithmetic error, not
the `WriteError`-class failure; whenever the driver cannot create a target
file the writer does fail with the `WriteError`-class failure (the
`AttributeError` surfacing on the `None` dataset handle), and a failed
create in a multi-band write prevents a successful result. -/
theorem write_failure_modes :
    (∀ (create : String → Bool) (rows cols : ℕ) (dtype : NpDtype)
        (data : ℕ → ℕ → ℚ) (folder name : String) (ref : Reference),
        rows = 0 ∨ cols = 0 →
        write_geotiff create (NpArray.a2 rows cols dtype data) folder ref name =
          Except.error PyError.zeroDivisionError) ∧
      (∀ (create : String → Bool) (rows cols nbands : ℕ) (dtype : NpDtype)
        (data : ℕ → ℕ → ℕ → ℚ) (folder name : String) (ref : Reference),
        rows = 0 ∨ cols = 0 →
        write_geotiff create (NpArray.a3 rows cols nbands dtype data) folder ref name =
          Except.error PyError.zeroDivisionError) ∧
      (∀ (create : String → Bool) (rows cols : ℕ) (dtype : NpDtype)
        (data : ℕ → ℕ → ℚ) (folder name : String) (ref : Reference),
        0 < rows → 0 < cols →
        create (folder ++ "/" ++ name ++ ".tif") = false →
        write_geotiff create (NpArray.a2 rows cols dtype data) folder ref name =
            Except.error (PyError.attributeErrorNone (folder ++ "/" ++ name ++ ".tif")) ∧
          isWriteError (PyError.attributeErrorNone (folder ++ "/" ++ name ++ ".tif")) = true) ∧
      (∀ (create : String → Bool) (rows cols nbands : ℕ) (dtype : NpDtype)
        (data : ℕ → ℕ → ℕ → ℚ) (folder name : String) (ref : Reference) (b : ℕ),
        0 < rows → 0 < cols → b < nbands →
        create (folder ++ "/" ++ name ++ "_" ++ toString b ++ ".tif") = false →
        ∀ files, write_geotiff create (NpArray.a3 rows cols nbands dtype data)
          folder ref name ≠ Except.ok files) := by
  refine ⟨?_, ?_, ?_, ?_⟩
  · intro create rows cols dtype data folder name ref hz
    have : cols = 0 ∨ rows = 0 := hz.symm
    simp [write_geotiff, this]
  · intro create rows cols nbands dtype data folder name ref hz
    have : cols = 0 ∨ rows = 0 := hz.symm
    simp [write_geotiff, this]
  · intro create rows cols dtype data folder name ref hr hc hcr
    have hz : ¬(cols = 0 ∨ rows = 0) := by omega
    refine ⟨?_, rfl⟩
    simp only [write_geotiff, if_neg hz, hcr]
    simp
  · intro create rows cols nbands dtype data folder name ref b hr hc hb hcr files
    have hz : ¬(cols = 0 ∨ rows = 0) := by omega
    simp only [write_geotiff, if_neg hz]
    exact writeBandLoop_fail create folder name ref.projection _ rows cols _
      data (List.range nbands) b (List.mem_range.mpr hb) hcr files

/-- Witness for C9: the four failure modes at concrete inputs: a (0, 3)
array, a (0, 2, 3) array, a (1, 1) array with every create failing, and a
(1, 1, 2) array with every create failing. -/
theorem write_failure_modes_witness :
    write_geotiff (fun _ => true) (NpArray.a2 0 3 NpDtype.float32 (fun _ _ => 0))
        "o" ⟨⟨0, 1, 0, 0, 0, -1⟩, "P", 4, 4⟩ "n" =
      Except.error PyError.zeroDivisionError ∧
      write_geotiff (fun _ => true)
          (NpArray.a3 0 2 3 NpDtype.float32 (fun _ _ _ => 0)) "o"
          ⟨⟨0, 1, 0, 0, 0, -1⟩, "P", 4, 4⟩ "n" =
        Except.error PyError.zeroDivisionError ∧
      (write_geotiff (fun _ => false)
          (NpArray.a2 1 1 NpDtype.float32 (fun _ _ => 0)) "o"
          ⟨⟨0, 1, 0, 0, 0, -1⟩, "P", 4, 4⟩ "n" =
          Except.error (PyError.attributeErrorNone ("o" ++ "/" ++ "n" ++ ".tif")) ∧
        isWriteError (PyError.attributeErrorNone ("o" ++ "/" ++ "n" ++ ".tif")) = true) ∧
      ∀ files, write_geotiff (fun _ => false)
          (NpArray.a3 1 1 2 NpDtype.float32 (fun _ _ _ => 0)) "o"
          ⟨⟨0, 1, 0, 0, 0, -1⟩, "P", 4, 4⟩ "n" ≠ Except.ok files :=
  ⟨write_failure_modes.1 (fun _ => true) 0 3 NpDtype.float32 (fun _ _ => 0)
      "o" "n" ⟨⟨0, 1, 0, 0, 0, -1⟩, "P", 4, 4⟩ (Or.inl rfl),
   write_failure_modes.2.1 (fun _ => true) 0 2 3 NpDtype.float32 (fun _ _ _ => 0)
      "o" "n" ⟨⟨0, 1, 0, 0, 0, -1⟩, "P", 4, 4⟩ (Or.inl rfl),
   write_failure_modes.2.2.1 (fun _ => false) 1 1 NpDtype.float32 (fun _ _ => 0)
      "o" "n" ⟨⟨0, 1, 0, 0, 0, -1⟩, "P", 4, 4⟩ (by norm_num) (by norm_num) rfl,
   write_failure_modes.2.2.2 (fun _ => false) 1 1 2 NpDtype.float32
      (fun _ _ _ => 0) "o" "n" ⟨⟨0, 1, 0, 0, 0, -1⟩, "P", 4, 4⟩ 0 (by norm_num)
      (by norm_num) (by norm_num) rfl⟩

/-- C10: every multi-band read stores each source pixel by the modular
uint32 cast: the value at last-axis index `band` is the integer part
(truncation toward zero) of 1-indexed band `band + 1`'s value, reduced
modulo 2^32; concretely, a source value -1 is stored as 2^32 - 1 and a
source value 5/2 as 2, both differing from the value read back. -/
theorem multiband_uint32_store :
    (∀ ds : Dataset, 1 < ds.rasterCount →
        read_geotiff ds = ReadResult.multi ds.rasterYSize ds.rasterXSize
          ds.rasterCount NpDtype.uint32 (fun i j band =>
            ((Int.tdiv (ds.bands (band + 1) i j).num
              ((ds.bands (band + 1) i j).den : ℤ)) % (2 ^ 32)).toNat)) ∧
      uint32Cast (-1) = 2 ^ 32 - 1 ∧
      uint32Cast (5 / 2) = 2 ∧
      ((2 ^ 32 - 1 : ℕ) : ℚ) ≠ -1 ∧
      ((2 : ℕ) : ℚ) ≠ 5 / 2 := by
  refine ⟨fun ds h => ?_, by norm_num [uint32Cast]; rfl,
    by norm_num [uint32Cast]; rfl, by norm_num, by norm_num⟩
  unfold read_geotiff
  rw [if_pos h]
  rfl

/-- Witness for C10: a 1x1 two-band dataset whose bands all hold -1. -/
theorem multiband_uint32_store_witness :
    read_geotiff ⟨1, 1, 2, NpDtype.float64, fun _ _ _ => -1⟩ =
      ReadResult.multi 1 1 2 NpDtype.uint32 (fun i j band =>
        ((Int.tdiv ((fun _ _ _ => (-1 : ℚ)) (band + 1) i j).num
          (((fun _ _ _ => (-1 : ℚ)) (band + 1) i j).den : ℤ)) % (2 ^ 32)).toNat) :=
  multiband_uint32_store.1 ⟨1, 1, 2, NpDtype.float64, fun _ _ _ => -1⟩ (by norm_num)

end Rastertools
